import Mathlib

/-!
Verification of `setup_pyenv` (src/build/runner/src/pyenv.rs).

The routine provisions a Python virtual environment and syncs its packages.
We embed it shallowly: the platform is a flag, the filesystem is a predicate
on path strings, and the success/failure of each external command issued is
drawn from an oracle indexed by the number of commands issued so far.  The
routine's observable behaviour is the ordered list of commands it issues
together with its final result.

`run_silent` lives in `crate::run`, which is not part of the sources at hand;
it is modelled from the spec as: run the command to completion, suppress its
output, and abort the routine fatally if the command fails.  The error
taxonomy (`CreationFailed`, `BootstrapFailed`, `SyncFailed`) follows the
spec's `ProvisionError`, naming which step failed.
-/

namespace Pyenv

/-- The compile-time platform switch `cfg!(windows)`. -/
structure Platform where
  windows : Bool
deriving DecidableEq, Repr

/-- Path separator used by `Utf8Path::join` on the platform. -/
def pathSep (p : Platform) : String := if p.windows then "\\" else "/"

/-- `Utf8Path::join` for the relative single-component paths used here
(`"scripts"`, `"bin"`, `"pip"`, `"pip-sync"`); no absolute component ever
occurs, so joining is separator-interposed concatenation. -/
def joinPath (p : Platform) (a b : String) : String := a ++ pathSep p ++ b

/-- The `PyenvArgs` CLI struct. -/
structure PyenvArgs where
  python_bin : String
  pyenv_folder : String
  initial_reqs : String
  reqs : List String
deriving DecidableEq, Repr

/-- An external command invocation: program path plus arguments. -/
structure Cmd where
  program : String
  args : List String
deriving DecidableEq, Repr

/-- Modelled from the spec: the error taxonomy of the provisioner; each fatal
step failure is reported as the corresponding kind. -/
inductive ProvisionError where
  | CreationFailed
  | BootstrapFailed
  | SyncFailed
deriving DecidableEq, Repr

/-- The environment a run executes against: the platform, which paths exist
on disk at entry, and the exit status (`true` = success) of the `i`-th
command issued during the run. -/
structure Env where
  platform : Platform
  fsExists : String → Bool
  outcomes : Nat → Bool

/-- The platform-dependent tooling folder (pyenv.rs line 23):
`pyenv_folder.join(if cfg!(windows) { "scripts" } else { "bin" })`. -/
def pyenv_bin_folder (p : Platform) (folder : String) : String :=
  joinPath p folder (if p.windows then "scripts" else "bin")

/-- The installer (sentinel) path (pyenv.rs line 24): `pyenv_bin_folder.join("pip")`. -/
def pip (p : Platform) (folder : String) : String :=
  joinPath p (pyenv_bin_folder p folder) "pip"

/-- The syncer path (pyenv.rs line 25): `pyenv_bin_folder.join("pip-sync")`. -/
def pip_sync (p : Platform) (folder : String) : String :=
  joinPath p (pyenv_bin_folder p folder) "pip-sync"

/-- Following the spec's words: `tooling_folder` = `target_folder` +
platform-specific subpath (`"scripts"` on the Windows family, `"bin"`
otherwise). -/
def tooling_folder (p : Platform) (target_folder : String) : String :=
  joinPath p target_folder (if p.windows then "scripts" else "bin")

/-- Following the spec's words: `installer_path` = `tooling_folder` +
installer executable name (`pip`). -/
def installer_path (p : Platform) (target_folder : String) : String :=
  joinPath p (tooling_folder p target_folder) "pip"

/-- Following the spec's words: `syncer_path` = `tooling_folder` + syncer
executable name (`pip-sync`). -/
def syncer_path (p : Platform) (target_folder : String) : String :=
  joinPath p (tooling_folder p target_folder) "pip-sync"

/-- Modelled from the spec: `run_silent` (from `crate::run`, not among the
sources) runs a command to completion, suppressing its output, and aborts
the routine with the given fatal error if the command fails.  The trace is
extended and the command's outcome is read off the oracle at the current
invocation index. -/
def run_silent (env : Env) (e : ProvisionError) (tr : List Cmd) (c : Cmd) :
    List Cmd × Except ProvisionError Unit :=
  (tr ++ [c], if env.outcomes tr.length then Except.ok () else Except.error e)

/-- The Windows workaround call at the exit-status level of abstraction:
`let _output = Command::new(&pip)...output().unwrap();` — the command is
issued and the exit status of the completed invocation is discarded (the
oracle entry at its index is never consulted).  This abstraction assumes the
invocation completes; the `unwrap` on a spawn error is modelled faithfully
by `run_unwrapped` in the spawn-aware model below, and
`setup_pyenv_spawn_agrees` shows the two models coincide whenever every
command can be spawned. -/
def run_ignored (tr : List Cmd) (c : Cmd) : List Cmd := tr ++ [c]

/-- Shallow embedding of `setup_pyenv` (pyenv.rs lines 20–43), threading the
trace of issued commands explicitly.  Returns the full ordered trace and the
final result. -/
def setup_pyenv (env : Env) (args : PyenvArgs) : List Cmd × Except ProvisionError Unit :=
  let pyenv_folder := args.pyenv_folder
  let pipPath := pip env.platform pyenv_folder
  let pipSyncPath := pip_sync env.platform pyenv_folder
  let bootstrapped : List Cmd × Except ProvisionError Unit :=
    if !(env.fsExists pipPath) then
      match run_silent env .CreationFailed []
          ⟨args.python_bin, ["-m", "venv", pyenv_folder]⟩ with
      | (tr, .error e) => (tr, .error e)
      | (tr, .ok ()) =>
        let tr :=
          if env.platform.windows then
            run_ignored tr ⟨pipPath, ["install", "-r", args.initial_reqs]⟩
          else tr
        run_silent env .BootstrapFailed tr ⟨pipPath, ["install", "-r", args.initial_reqs]⟩
    else ([], .ok ())
  match bootstrapped with
  | (tr, .error e) => (tr, .error e)
  | (tr, .ok ()) => run_silent env .SyncFailed tr ⟨pipSyncPath, args.reqs⟩

/-- Result of attempting to run one external command, distinguishing a
process that could not be started (`Command::output()` returning `Err`)
from one that ran to completion with some exit status. -/
inductive SpawnResult where
  | notSpawned
  | exited (success : Bool)
deriving DecidableEq, Repr

/-- Whether the attempt ran to completion with a zero exit status. -/
def SpawnResult.isSuccess : SpawnResult → Bool
  | .exited true => true
  | _ => false

/-- How a run can end early in the spawn-aware model: a fatal step failure
reported through the error taxonomy, or the panic raised by the `unwrap`
on the workaround call's spawn error. -/
inductive RunError where
  | fatal (e : ProvisionError)
  | panicked
deriving DecidableEq, Repr

/-- The spawn-aware execution environment: as `Env`, but the oracle yields a
`SpawnResult` per invocation, so a command can also fail to start. -/
structure SpawnEnv where
  platform : Platform
  fsExists : String → Bool
  results : Nat → SpawnResult

/-- Modelled from the spec: `run_silent` in the spawn-aware model.  Per the
spec's error taxonomy, a command that "exited non-zero or could not be
started" fails the step fatally. -/
def run_silent_spawn (env : SpawnEnv) (e : ProvisionError) (tr : List Cmd) (c : Cmd) :
    List Cmd × Except RunError Unit :=
  (tr ++ [c],
    match env.results tr.length with
    | .exited true => Except.ok ()
    | _ => Except.error (RunError.fatal e))

/-- The Windows workaround call with its real error path (pyenv.rs lines
33–36): `Command::new(&pip)...output().unwrap()`.  A completed invocation's
exit status is discarded, but if the command cannot be spawned, `output()`
returns `Err` and the `unwrap` panics, aborting the routine. -/
def run_unwrapped (env : SpawnEnv) (tr : List Cmd) (c : Cmd) :
    List Cmd × Except RunError Unit :=
  (tr ++ [c],
    match env.results tr.length with
    | .notSpawned => Except.error RunError.panicked
    | .exited _ => Except.ok ())

/-- Spawn-aware embedding of `setup_pyenv` (pyenv.rs lines 20–43): identical
to `setup_pyenv` except that each invocation may also fail to start, and the
workaround call's spawn failure panics instead of being discarded. -/
def setup_pyenv_spawn (env : SpawnEnv) (args : PyenvArgs) :
    List Cmd × Except RunError Unit :=
  let pyenv_folder := args.pyenv_folder
  let pipPath := pip env.platform pyenv_folder
  let pipSyncPath := pip_sync env.platform pyenv_folder
  let bootstrapped : List Cmd × Except RunError Unit :=
    if !(env.fsExists pipPath) then
      match run_silent_spawn env .CreationFailed []
          ⟨args.python_bin, ["-m", "venv", pyenv_folder]⟩ with
      | (tr, .error e) => (tr, .error e)
      | (tr, .ok ()) =>
        match
          (if env.platform.windows then
            run_unwrapped env tr ⟨pipPath, ["install", "-r", args.initial_reqs]⟩
          else (tr, Except.ok ())) with
        | (tr, .error e) => (tr, .error e)
        | (tr, .ok ()) =>
          run_silent_spawn env .BootstrapFailed tr
            ⟨pipPath, ["install", "-r", args.initial_reqs]⟩
    else ([], Except.ok ())
  match bootstrapped with
  | (tr, .error e) => (tr, .error e)
  | (tr, .ok ()) => run_silent_spawn env .SyncFailed tr ⟨pipSyncPath, args.reqs⟩

/-- Forgets the distinction the spawn-aware result adds on the fatal side. -/
def liftResult : Except ProvisionError Unit → Except RunError Unit
  | .ok () => .ok ()
  | .error e => .error (.fatal e)

/-- The environment-creation command: `python_bin -m venv pyenv_folder`. -/
def creationCmd (args : PyenvArgs) : Cmd :=
  ⟨args.python_bin, ["-m", "venv", args.pyenv_folder]⟩

/-- The bootstrap install command (also the Windows workaround command):
`pip install -r initial_reqs`. -/
def installCmd (p : Platform) (args : PyenvArgs) : Cmd :=
  ⟨pip p args.pyenv_folder, ["install", "-r", args.initial_reqs]⟩

/-- The sync command: `pip-sync reqs...`. -/
def syncCmd (p : Platform) (args : PyenvArgs) : Cmd :=
  ⟨pip_sync p args.pyenv_folder, args.reqs⟩

/-- Complete case-by-case characterisation of `setup_pyenv`, used by the
individual claim theorems. -/
theorem setup_pyenv_eq (env : Env) (args : PyenvArgs) :
    setup_pyenv env args =
      if env.fsExists (pip env.platform args.pyenv_folder) then
        ([syncCmd env.platform args],
          if env.outcomes 0 then Except.ok () else Except.error .SyncFailed)
      else if !env.outcomes 0 then
        ([creationCmd args], Except.error .CreationFailed)
      else if env.platform.windows then
        if !env.outcomes 2 then
          ([creationCmd args, installCmd env.platform args, installCmd env.platform args],
            Except.error .BootstrapFailed)
        else
          ([creationCmd args, installCmd env.platform args, installCmd env.platform args,
              syncCmd env.platform args],
            if env.outcomes 3 then Except.ok () else Except.error .SyncFailed)
      else
        if !env.outcomes 1 then
          ([creationCmd args, installCmd env.platform args], Except.error .BootstrapFailed)
        else
          ([creationCmd args, installCmd env.platform args, syncCmd env.platform args],
            if env.outcomes 2 then Except.ok () else Except.error .SyncFailed) := by
  unfold setup_pyenv
  simp only [creationCmd, installCmd, syncCmd]
  cases hfs : env.fsExists (pip env.platform args.pyenv_folder) <;>
    cases h0 : env.outcomes 0 <;>
    cases hw : env.platform.windows <;>
    cases h1 : env.outcomes 1 <;>
    cases h2 : env.outcomes 2 <;>
    cases h3 : env.outcomes 3 <;>
    simp_all [run_silent, run_ignored]

/-- Complete case-by-case characterisation of the spawn-aware run. -/
theorem setup_pyenv_spawn_eq (env : SpawnEnv) (args : PyenvArgs) :
    setup_pyenv_spawn env args =
      if env.fsExists (pip env.platform args.pyenv_folder) then
        ([syncCmd env.platform args],
          if (env.results 0).isSuccess then Except.ok ()
          else Except.error (RunError.fatal .SyncFailed))
      else if !(env.results 0).isSuccess then
        ([creationCmd args], Except.error (RunError.fatal .CreationFailed))
      else if env.platform.windows then
        if env.results 1 = SpawnResult.notSpawned then
          ([creationCmd args, installCmd env.platform args], Except.error RunError.panicked)
        else if !(env.results 2).isSuccess then
          ([creationCmd args, installCmd env.platform args, installCmd env.platform args],
            Except.error (RunError.fatal .BootstrapFailed))
        else
          ([creationCmd args, installCmd env.platform args, installCmd env.platform args,
              syncCmd env.platform args],
            if (env.results 3).isSuccess then Except.ok ()
            else Except.error (RunError.fatal .SyncFailed))
      else
        if !(env.results 1).isSuccess then
          ([creationCmd args, installCmd env.platform args],
            Except.error (RunError.fatal .BootstrapFailed))
        else
          ([creationCmd args, installCmd env.platform args, syncCmd env.platform args],
            if (env.results 2).isSuccess then Except.ok ()
            else Except.error (RunError.fatal .SyncFailed)) := by
  unfold setup_pyenv_spawn
  simp only [creationCmd, installCmd, syncCmd]
  cases hfs : env.fsExists (pip env.platform args.pyenv_folder) <;>
    rcases h0 : env.results 0 with _ | (_ | _) <;>
    cases hw : env.platform.windows <;>
    rcases h1 : env.results 1 with _ | (_ | _) <;>
    rcases h2 : env.results 2 with _ | (_ | _) <;>
    rcases h3 : env.results 3 with _ | (_ | _) <;>
    simp_all [run_silent_spawn, run_unwrapped, SpawnResult.isSuccess]

/-- When every command can be spawned, the spawn-aware run coincides with
the exit-status-level run driven by the completed exit statuses; this is the
regime in which `run_ignored`'s abstraction is exact. -/
theorem setup_pyenv_spawn_agrees (env : SpawnEnv) (args : PyenvArgs)
    (h : ∀ n, env.results n ≠ SpawnResult.notSpawned) :
    setup_pyenv_spawn env args =
      ((setup_pyenv ⟨env.platform, env.fsExists, fun n => (env.results n).isSuccess⟩ args).1,
        liftResult
          (setup_pyenv ⟨env.platform, env.fsExists,
            fun n => (env.results n).isSuccess⟩ args).2) := by
  have h1 := h 1
  rw [setup_pyenv_spawn_eq, setup_pyenv_eq]
  cases hfs : env.fsExists (pip env.platform args.pyenv_folder) <;>
    rcases h0 : env.results 0 with _ | (_ | _) <;>
    cases hw : env.platform.windows <;>
    rcases h1' : env.results 1 with _ | (_ | _) <;>
    rcases h2 : env.results 2 with _ | (_ | _) <;>
    rcases h3 : env.results 3 with _ | (_ | _) <;>
    simp_all [SpawnResult.isSuccess, liftResult]

/-- Every run either aborts before the sync step (creation or bootstrap
failure) or its trace ends with the sync command carrying exactly the
caller-supplied requirement list. -/
theorem sync_last_or_abort (env : Env) (args : PyenvArgs) :
    (setup_pyenv env args).2 = Except.error ProvisionError.CreationFailed ∨
      (setup_pyenv env args).2 = Except.error ProvisionError.BootstrapFailed ∨
      (setup_pyenv env args).1.getLast? =
        some ⟨pip_sync env.platform args.pyenv_folder, args.reqs⟩ := by
  rw [setup_pyenv_eq]
  cases hfs : env.fsExists (pip env.platform args.pyenv_folder) <;>
    cases h0 : env.outcomes 0 <;>
    cases hw : env.platform.windows <;>
    cases h1 : env.outcomes 1 <;>
    cases h2 : env.outcomes 2 <;>
    simp_all [syncCmd, List.getLast?, List.getLast]

/-- The concrete scenario arguments of the spec's test list. -/
def scenarioArgs : PyenvArgs := ⟨"python3", "/tmp/env", "base.txt", ["a.txt", "b.txt"]⟩

/-- Variant arguments agreeing with `scenarioArgs` on folder and sync
requirements only. -/
def scenarioArgsAlt : PyenvArgs := ⟨"python3.11", "/tmp/env", "other.txt", ["a.txt", "b.txt"]⟩

/-- Non-Windows, unprovisioned folder, every command succeeds. -/
def envFresh : Env := ⟨⟨false⟩, fun _ => false, fun _ => true⟩

/-- Non-Windows, sentinel present, every command succeeds. -/
def envProvisioned : Env := ⟨⟨false⟩, fun _ => true, fun _ => true⟩

/-- Non-Windows, unprovisioned folder, every command fails. -/
def envFreshFail : Env := ⟨⟨false⟩, fun _ => false, fun _ => false⟩

/-- Non-Windows, unprovisioned folder, only the first command succeeds. -/
def envBootFail : Env := ⟨⟨false⟩, fun _ => false, fun n => decide (n = 0)⟩

/-- Windows, unprovisioned folder, every command spawns and exits zero. -/
def envWinSpawnOk : SpawnEnv := ⟨⟨true⟩, fun _ => false, fun _ => .exited true⟩

/-- Windows, unprovisioned folder, every command spawns; the second (the
workaround install) exits non-zero. -/
def envWinExitFail : SpawnEnv :=
  ⟨⟨true⟩, fun _ => false, fun n => if n = 1 then .exited false else .exited true⟩

/-- Windows, unprovisioned folder: the second command (the workaround
install) cannot be spawned; every other command spawns and exits zero. -/
def envWinSpawnFail : SpawnEnv :=
  ⟨⟨true⟩, fun _ => false, fun n => if n = 1 then .notSpawned else .exited true⟩

/-- C1: on an unprovisioned folder, a successful run issues exactly the
creation command, then (on Windows only) the workaround install, then the
bootstrap install, then the sync command, in that order; in particular the
sync command is never skipped. -/
theorem first_run_ordering (env : Env) (args : PyenvArgs)
    (hfs : env.fsExists (pip env.platform args.pyenv_folder) = false)
    (hok : (setup_pyenv env args).2 = Except.ok ()) :
    (setup_pyenv env args).1 =
      [creationCmd args] ++
        (if env.platform.windows then [installCmd env.platform args] else []) ++
        [installCmd env.platform args, syncCmd env.platform args] := by
  rw [setup_pyenv_eq] at hok ⊢
  cases h0 : env.outcomes 0 <;>
    cases hw : env.platform.windows <;>
    cases h1 : env.outcomes 1 <;>
    cases h2 : env.outcomes 2 <;>
    cases h3 : env.outcomes 3 <;>
    simp_all

/-- C1 witness: concrete first run on a non-Windows platform. -/
theorem first_run_ordering_witness :
    (setup_pyenv envFresh scenarioArgs).1 =
      [creationCmd scenarioArgs] ++
        (if envFresh.platform.windows then [installCmd envFresh.platform scenarioArgs]
          else []) ++
        [installCmd envFresh.platform scenarioArgs, syncCmd envFresh.platform scenarioArgs] :=
  first_run_ordering envFresh scenarioArgs rfl rfl

/-- C2: the sentinel (`pip` on disk) decides provisioning: when absent the
run starts with the creation command; when present the run issues only the
sync command; and the behaviour depends on the filesystem only through the
sentinel path's existence. -/
theorem sentinel_sole_signal (env : Env) (args : PyenvArgs) :
    (env.fsExists (pip env.platform args.pyenv_folder) = false →
        (setup_pyenv env args).1.head? = some (creationCmd args)) ∧
      (env.fsExists (pip env.platform args.pyenv_folder) = true →
        (setup_pyenv env args).1 = [syncCmd env.platform args]) ∧
      (∀ env' : Env, env'.platform = env.platform → env'.outcomes = env.outcomes →
        env'.fsExists (pip env.platform args.pyenv_folder) =
          env.fsExists (pip env.platform args.pyenv_folder) →
        setup_pyenv env' args = setup_pyenv env args) := by
  refine ⟨?_, ?_, ?_⟩
  · intro hfs
    rw [setup_pyenv_eq]
    cases h0 : env.outcomes 0 <;>
      cases hw : env.platform.windows <;>
      cases h1 : env.outcomes 1 <;>
      cases h2 : env.outcomes 2 <;>
      cases h3 : env.outcomes 3 <;>
      simp_all
  · intro hfs
    rw [setup_pyenv_eq]
    simp [hfs]
  · intro env' hp ho hfs
    rw [setup_pyenv_eq, setup_pyenv_eq, hp, ho, hfs]

/-- C2 witness: with the sentinel present, only the sync command runs. -/
theorem sentinel_sole_signal_witness :
    (setup_pyenv envProvisioned scenarioArgs).1 =
      [syncCmd envProvisioned.platform scenarioArgs] :=
  (sentinel_sole_signal envProvisioned scenarioArgs).2.1 rfl

/-- C3: if the creation command fails on an unprovisioned folder, the run
stops there — neither install nor sync is issued — and reports
`CreationFailed`. -/
theorem creation_failure_fatal (env : Env) (args : PyenvArgs)
    (hfs : env.fsExists (pip env.platform args.pyenv_folder) = false)
    (h0 : env.outcomes 0 = false) :
    setup_pyenv env args =
      ([creationCmd args], Except.error ProvisionError.CreationFailed) := by
  rw [setup_pyenv_eq]
  simp [hfs, h0]

/-- C3 witness: concrete failing creation. -/
theorem creation_failure_fatal_witness :
    setup_pyenv envFreshFail scenarioArgs =
      ([creationCmd scenarioArgs], Except.error ProvisionError.CreationFailed) :=
  creation_failure_fatal envFreshFail scenarioArgs rfl rfl

/-- C4: if the mandatory bootstrap install fails, the sync command is not
issued (the trace ends at that install) and the run reports
`BootstrapFailed`. -/
theorem bootstrap_failure_fatal (env : Env) (args : PyenvArgs)
    (hfs : env.fsExists (pip env.platform args.pyenv_folder) = false)
    (h0 : env.outcomes 0 = true)
    (hb : env.outcomes (if env.platform.windows then 2 else 1) = false) :
    setup_pyenv env args =
      ((if env.platform.windows then
          [creationCmd args, installCmd env.platform args, installCmd env.platform args]
        else [creationCmd args, installCmd env.platform args]),
        Except.error ProvisionError.BootstrapFailed) := by
  rw [setup_pyenv_eq]
  cases hw : env.platform.windows <;> simp_all

/-- C4 witness: concrete failing bootstrap install. -/
theorem bootstrap_failure_fatal_witness :
    setup_pyenv envBootFail scenarioArgs =
      ((if envBootFail.platform.windows then
          [creationCmd scenarioArgs, installCmd envBootFail.platform scenarioArgs,
            installCmd envBootFail.platform scenarioArgs]
        else [creationCmd scenarioArgs, installCmd envBootFail.platform scenarioArgs]),
        Except.error ProvisionError.BootstrapFailed) :=
  bootstrap_failure_fatal envBootFail scenarioArgs rfl rfl rfl

/-- C5 counterexample: on Windows with an unprovisioned folder, when the
workaround install command cannot be spawned, `output()` returns an error
and the `unwrap` panics: the run aborts right after the workaround call,
the mandatory bootstrap install and the sync are never issued, and the
panic reaches the caller — refuting the claim that the workaround's result
is never surfaced in any form and that the routine proceeds rather than
aborting. -/
theorem workaround_spawn_failure_aborts :
    setup_pyenv_spawn envWinSpawnFail scenarioArgs =
      ([creationCmd scenarioArgs, installCmd envWinSpawnFail.platform scenarioArgs],
        Except.error RunError.panicked) := by
  rw [setup_pyenv_spawn_eq]
  simp [envWinSpawnFail, SpawnResult.isSuccess]

/-- C5 amended: on Windows first runs, the exit status of a completed
workaround install is never surfaced — the run proceeds to the mandatory
bootstrap install and is entirely unchanged (trace and result) under any
change of that completed exit status — whereas a workaround command that
cannot be spawned panics via the `unwrap`, aborting the run before the
mandatory install. -/
theorem workaround_exit_never_surfaced (env env' : SpawnEnv) (args : PyenvArgs)
    (hw : env.platform.windows = true)
    (hfs : env.fsExists (pip env.platform args.pyenv_folder) = false)
    (h0 : env.results 0 = SpawnResult.exited true)
    (hp : env'.platform = env.platform)
    (hf : env'.fsExists = env.fsExists)
    (ho : ∀ n, n ≠ 1 → env'.results n = env.results n) :
    (∀ b b', env.results 1 = SpawnResult.exited b →
        env'.results 1 = SpawnResult.exited b' →
        (setup_pyenv_spawn env args).1.take 3 =
            [creationCmd args, installCmd env.platform args, installCmd env.platform args] ∧
          setup_pyenv_spawn env' args = setup_pyenv_spawn env args) ∧
      (env.results 1 = SpawnResult.notSpawned →
        setup_pyenv_spawn env args =
          ([creationCmd args, installCmd env.platform args],
            Except.error RunError.panicked)) := by
  have e0 := ho 0 (by decide)
  have e2 := ho 2 (by decide)
  have e3 := ho 3 (by decide)
  constructor
  · intro b b' hb hb'
    constructor
    · rw [setup_pyenv_spawn_eq]
      cases hs2 : (env.results 2).isSuccess <;>
        simp_all [SpawnResult.isSuccess, List.take]
    · rw [setup_pyenv_spawn_eq, setup_pyenv_spawn_eq, hp, hf]
      simp [hfs, hw, h0, e0, e2, e3, hb, hb', SpawnResult.isSuccess]
  · intro hns
    rw [setup_pyenv_spawn_eq]
    simp [hfs, hw, h0, hns, SpawnResult.isSuccess]

/-- C5 witness: concrete Windows runs differing only in the workaround
install's completed exit status coincide, and both proceed through the
mandatory install. -/
theorem workaround_exit_never_surfaced_witness :
    (setup_pyenv_spawn envWinSpawnOk scenarioArgs).1.take 3 =
        [creationCmd scenarioArgs, installCmd envWinSpawnOk.platform scenarioArgs,
          installCmd envWinSpawnOk.platform scenarioArgs] ∧
      setup_pyenv_spawn envWinExitFail scenarioArgs =
        setup_pyenv_spawn envWinSpawnOk scenarioArgs :=
  (workaround_exit_never_surfaced envWinSpawnOk envWinExitFail scenarioArgs
      rfl rfl rfl rfl rfl (fun _ hn => if_neg hn)).1 true false rfl rfl

/-- C6: whenever the run reaches the sync step, the sync command is the last
command issued and carries exactly the caller-supplied requirement paths in
order, with no extra arguments. -/
theorem sync_args_passthrough (env : Env) (args : PyenvArgs) :
    (setup_pyenv env args).2 = Except.error ProvisionError.CreationFailed ∨
      (setup_pyenv env args).2 = Except.error ProvisionError.BootstrapFailed ∨
      (setup_pyenv env args).1.getLast? =
        some ⟨pip_sync env.platform args.pyenv_folder, args.reqs⟩ :=
  sync_last_or_abort env args

/-- C7: the source's derived paths agree with the spec's derivation rules:
tooling folder = target + "scripts"/"bin" by platform, installer = tooling +
"pip", syncer = tooling + "pip-sync". -/
theorem derived_paths (p : Platform) (folder : String) :
    pyenv_bin_folder p folder = tooling_folder p folder ∧
      pip p folder = installer_path p folder ∧
      pip_sync p folder = syncer_path p folder :=
  ⟨rfl, rfl, rfl⟩

/-- C8: the spec's concrete scenario: non-Windows, folder absent, all
commands succeed; exactly the three expected commands run in order and the
run succeeds. -/
theorem concrete_scenario (o : Nat → Bool)
    (h0 : o 0 = true) (h1 : o 1 = true) (h2 : o 2 = true) :
    setup_pyenv ⟨⟨false⟩, fun _ => false, o⟩ scenarioArgs =
      ([⟨"python3", ["-m", "venv", "/tmp/env"]⟩,
          ⟨"/tmp/env/bin/pip", ["install", "-r", "base.txt"]⟩,
          ⟨"/tmp/env/bin/pip-sync", ["a.txt", "b.txt"]⟩],
        Except.ok ()) := by
  rw [setup_pyenv_eq]
  simp [scenarioArgs, h0, h1, h2, creationCmd, installCmd, syncCmd, pip, pip_sync,
    pyenv_bin_folder, joinPath, pathSep]

/-- C8 witness: the scenario with every command succeeding. -/
theorem concrete_scenario_witness :
    setup_pyenv ⟨⟨false⟩, fun _ => false, fun _ => true⟩ scenarioArgs =
      ([⟨"python3", ["-m", "venv", "/tmp/env"]⟩,
          ⟨"/tmp/env/bin/pip", ["install", "-r", "base.txt"]⟩,
          ⟨"/tmp/env/bin/pip-sync", ["a.txt", "b.txt"]⟩],
        Except.ok ()) :=
  concrete_scenario (fun _ => true) rfl rfl rfl

/-- C9: with an empty sync requirement list, the sync step is still reached
(unless an earlier step aborted fatally) and the sync command is issued with
zero arguments. -/
theorem empty_reqs_sync_invoked (env : Env) (python folder initial : String) :
    (setup_pyenv env ⟨python, folder, initial, []⟩).2 =
        Except.error ProvisionError.CreationFailed ∨
      (setup_pyenv env ⟨python, folder, initial, []⟩).2 =
        Except.error ProvisionError.BootstrapFailed ∨
      (setup_pyenv env ⟨python, folder, initial, []⟩).1.getLast? =
        some ⟨pip_sync env.platform folder, []⟩ :=
  sync_last_or_abort env ⟨python, folder, initial, []⟩

/-- C10: with the sentinel present, the run is the single sync command,
whose program and arguments depend only on the target folder, the platform
and the sync requirements; the interpreter and bootstrap paths are never
used. -/
theorem provisioned_frame (env : Env) (args args' : PyenvArgs)
    (hfs : env.fsExists (pip env.platform args.pyenv_folder) = true)
    (hfolder : args'.pyenv_folder = args.pyenv_folder)
    (hreqs : args'.reqs = args.reqs) :
    setup_pyenv env args' = setup_pyenv env args ∧
      (setup_pyenv env args).1 =
        [⟨pip_sync env.platform args.pyenv_folder, args.reqs⟩] := by
  constructor
  · rw [setup_pyenv_eq, setup_pyenv_eq]
    simp [hfs, hfolder, hreqs, syncCmd]
  · rw [setup_pyenv_eq]
    simp [hfs, syncCmd]

/-- C10 witness: changing interpreter and bootstrap file leaves a
provisioned run unchanged. -/
theorem provisioned_frame_witness :
    (setup_pyenv envProvisioned scenarioArgsAlt = setup_pyenv envProvisioned scenarioArgs ∧
      (setup_pyenv envProvisioned scenarioArgs).1 =
        [⟨pip_sync envProvisioned.platform scenarioArgs.pyenv_folder, scenarioArgs.reqs⟩]) :=
  provisioned_frame envProvisioned scenarioArgs scenarioArgsAlt rfl rfl rfl

end Pyenv
